import Mathlib

/-!
Verification of the CompuCyto camera service (src/backend-python).

This file gives a shallow embedding of the parts of the service the claims
speak about, translated from the Python source:

- camera_streamer.py: the CameraStreamer class (client registry, stream
  loop, pause/resume, broadcast with per-client pruning);
- camera_utils.py: capture_frame with its bounded retry and Transient/Fatal
  error classification;
- pixelink_camera.py: the PixelinkCamera class (settings store with
  clamping, auto-exposure, snapshot capture, video recording);
- main.py: the FastAPI endpoints that bracket captures with pause/resume.

Device calls (the vendor PxLApi SDK) are opaque; they are modelled as
oracle parameters recording, for each call the code makes, whether the call
succeeds and what it returns.  Opaque payloads (frames, websocket clients)
are modelled as natural numbers.  Python floats are modelled as rationals.
-/

namespace CompuCyto

/-! ## Streaming engine (camera_streamer.py) -/

/-- Events the streaming engine emits toward the task layer, the device
adapter and the registered clients. -/
inductive StreamEvent where
  | startRequested
  | stopRequested
  | getNextFrameCall
  | stopStreamCall
  | sent (client : Nat) (frame : Nat)
  deriving DecidableEq, Repr

/-- State of a camera_streamer.CameraStreamer instance: the fields of the
Python class that the claims touch.  Clients are opaque, modelled as Nat;
the registry is a set, as in the source. -/
structure StreamerSt where
  activeClients : Finset Nat
  is_streaming : Bool
  paused : Bool
  current_frame : Option Nat
  deriving DecidableEq

/-- CameraStreamer.__init__ : empty registry, not streaming, not paused,
no cached frame. -/
def initStreamer : StreamerSt :=
  { activeClients := ∅, is_streaming := false, paused := false, current_frame := none }

/-- CameraStreamer.start_streaming : a no-op when already streaming;
otherwise sets the flag and submits the stream-loop task (the task
submission is the streaming start request). -/
def start_streaming (s : StreamerSt) : StreamerSt × List StreamEvent :=
  if s.is_streaming then (s, [])
  else ({ s with is_streaming := true }, [StreamEvent.startRequested])

/-- CameraStreamer.stop_streaming : a no-op when not streaming; otherwise
clears the flag and cancels the loop task (the streaming stop request). -/
def stop_streaming (s : StreamerSt) : StreamerSt × List StreamEvent :=
  if s.is_streaming = false then (s, [])
  else ({ s with is_streaming := false }, [StreamEvent.stopRequested])

/-- CameraStreamer.add_client : insert into the registry; when the registry
size is 1 afterwards and the engine is not streaming, start streaming. -/
def add_client (s : StreamerSt) (c : Nat) : StreamerSt × List StreamEvent :=
  let s1 := { s with activeClients := insert c s.activeClients }
  if s1.activeClients.card = 1 ∧ s1.is_streaming = false then
    start_streaming s1
  else (s1, [])

/-- CameraStreamer.remove_client : discard from the registry; when the
registry is empty afterwards and the engine is streaming, stop streaming. -/
def remove_client (s : StreamerSt) (c : Nat) : StreamerSt × List StreamEvent :=
  let s1 := { s with activeClients := s.activeClients.erase c }
  if s1.activeClients.card = 0 ∧ s1.is_streaming = true then
    stop_streaming s1
  else (s1, [])

/-- One call of add_client or remove_client with its argument. -/
inductive ClientOp where
  | add (c : Nat)
  | remove (c : Nat)
  deriving DecidableEq, Repr

def clientStep (s : StreamerSt) : ClientOp → StreamerSt × List StreamEvent
  | .add c => add_client s c
  | .remove c => remove_client s c

/-- The state after a sequence of add_client / remove_client calls, each
call together with its start/stop settling (the engine flag is updated by
the same call, which is what the spec's asynchronous settling leaves). -/
def runClientOps (s : StreamerSt) : List ClientOp → StreamerSt
  | [] => s
  | op :: ops => runClientOps (clientStep s op).1 ops

/-- The settled invariant: the engine streams exactly while the registry is
non-empty. -/
def StreamInv (s : StreamerSt) : Prop :=
  s.is_streaming = true ↔ s.activeClients.Nonempty

/-- The send pass of CameraStreamer._broadcast_frame over the listed
clients: sends the frame to each one (a sent event per client whose send
call returns) and collects the clients whose send raised.  A failure is
caught per client and never re-raised. -/
def broadcastSend (sendOk : Nat → Bool) (frame : Nat) : List Nat → List Nat × List StreamEvent
  | [] => ([], [])
  | c :: rest =>
    let r := broadcastSend sendOk frame rest
    if sendOk c then (r.1, StreamEvent.sent c frame :: r.2)
    else (c :: r.1, r.2)

/-- CameraStreamer._broadcast_frame : nothing to do without clients;
otherwise send the frame to every registered client, discard exactly the
clients whose send failed, and when none remain while the engine is still
streaming, stop streaming. -/
def broadcast_frame (sendOk : Nat → Bool) (frame : Nat) (s : StreamerSt) :
    StreamerSt × List StreamEvent :=
  if s.activeClients = ∅ then (s, [])
  else
    let r := broadcastSend sendOk frame (s.activeClients.sort (fun a b => a ≤ b))
    let s1 := { s with activeClients := r.1.foldl (fun acc c => acc.erase c) s.activeClients }
    if s1.activeClients.card = 0 ∧ s1.is_streaming = true then
      let r2 := stop_streaming s1
      (r2.1, r.2 ++ r2.2)
    else (s1, r.2)

/-- One iteration of CameraStreamer._stream_loop up to its next await.
The while-condition, the client check, the paused check and the dispatch of
the capture run in one synchronous block of the event loop, so an
iteration that observes paused makes no device call.  hw says whether the
hardware capture path is taken (a getNextFrameCall toward the adapter);
cap is this iteration's capture outcome (none = capture failed, the
iteration is skipped). -/
def stream_loop_iter (hw : Bool) (cap : Option Nat) (sendOk : Nat → Bool)
    (s : StreamerSt) : StreamerSt × List StreamEvent :=
  if s.is_streaming = false then (s, [])
  else if s.activeClients = ∅ then
    ({ s with is_streaming := false }, if hw then [StreamEvent.stopStreamCall] else [])
  else if s.paused then (s, [])
  else
    let evs := if hw then [StreamEvent.getNextFrameCall] else []
    match cap with
    | none => (s, evs)
    | some frame =>
      let s1 := { s with current_frame := some frame }
      let r := broadcast_frame sendOk frame s1
      (r.1, evs ++ r.2)

/-- The interleaved actions on the engine: a loop iteration, a pause
request (pause_streaming sets the flag, then only waits out the grace
interval) and a resume (resume_streaming clears the flag). -/
inductive SysAction where
  | loopIter (cap : Option Nat)
  | pauseRequest
  | resumeRequest
  deriving DecidableEq, Repr

def stepSys (hw : Bool) (sendOk : Nat → Bool) (s : StreamerSt) :
    SysAction → StreamerSt × List StreamEvent
  | .loopIter cap => stream_loop_iter hw cap sendOk s
  | .pauseRequest => ({ s with paused := true }, [])
  | .resumeRequest => ({ s with paused := false }, [])

def runSys (hw : Bool) (sendOk : Nat → Bool) (s : StreamerSt) :
    List SysAction → StreamerSt × List StreamEvent
  | [] => (s, [])
  | a :: acts =>
    let r := stepSys hw sendOk s a
    let r2 := runSys hw sendOk r.1 acts
    (r2.1, r.2 ++ r2.2)

/-- The pause bracket of the POST /capture endpoint (main.py): it reads
streamer.is_streaming and requests a pause only when streaming was
active. -/
def capture_endpoint_pause_actions (s : StreamerSt) : List SysAction :=
  if s.is_streaming then [SysAction.pauseRequest] else []

/-! ## Frame acquisition (camera_utils.py) -/

/-- Result of one PxLApi.getNextNumPyFrame call as the source classifies it:
success with a raw frame, a fatal code (ApiStreamStopped = -2147483630 or
ApiNoCameraAvailableError, which abort at once), or any other failure
(transient, retried). -/
inductive NextFrameResult where
  | success (raw : Nat)
  | transient
  | fatal
  deriving DecidableEq, Repr

/-- The device adapter as frame acquisition sees it: the outcome of the
i-th getNextFrame call of one acquisition (0-based), and the
formatNumPyImage step turning a raw frame into an RGB24 image (none means
the format call failed). -/
structure FrameAdapter where
  getNextFrame : Nat → NextFrameResult
  formatImage : Nat → Option Nat

/-- The retry loop of camera_utils.capture_frame (the loop in
CameraStreamer._capture_real_frame is identical): up to fuel getNextFrame
calls starting at call index i; success breaks, a fatal code returns
failure at once, a transient failure retries immediately.  Returns the raw
frame (or none) and the number of getNextFrame calls made. -/
def getFrameLoop (a : FrameAdapter) : Nat → Nat → Option Nat × Nat
  | 0, _ => (none, 0)
  | fuel + 1, i =>
    match a.getNextFrame i with
    | .success raw => (some raw, 1)
    | .fatal => (none, 1)
    | .transient =>
      let r := getFrameLoop a fuel (i + 1)
      (r.1, r.2 + 1)

/-- camera_utils.capture_frame : run the retry loop with max_retries
attempts, then format the raw frame as RGB24.  Returns the image (or none)
and the number of getNextFrame calls made. -/
def capture_frame (a : FrameAdapter) (max_retries : Nat) : Option Nat × Nat :=
  match getFrameLoop a max_retries 0 with
  | (none, n) => (none, n)
  | (some raw, n) => (a.formatImage raw, n)

/-- MAX_RETRIES = 3 in CameraStreamer._capture_real_frame (the continuous
streaming path). -/
def STREAMING_MAX_RETRIES : Nat := 3

/-- max_retries = 4 passed by PixelinkCamera._capture_real_image (one-shot
snapshot capture). -/
def SNAPSHOT_MAX_RETRIES : Nat := 4

/-! ## Settings store and exclusive operations (pixelink_camera.py) -/

/-- The clamp idiom max(lo, min(x, hi)) the setters use. -/
def clampQ (lo hi x : ℚ) : ℚ := max lo (min x hi)

/-- State of a PixelinkCamera instance: the settings store (exposure in
milliseconds, as stored by the source), the queried feature bounds, and
the stream/recording flags. -/
structure Cam where
  exposure : ℚ
  gain : ℚ
  gamma : ℚ
  exposure_min : ℚ
  exposure_max : ℚ
  gain_min : ℚ
  gain_max : ℚ
  gamma_min : ℚ
  gamma_max : ℚ
  gamma_supported : Bool
  auto_exposure_enabled : Bool
  auto_exposure_supported : Bool
  is_connected : Bool
  is_streaming : Bool
  is_recording : Bool
  num_images_streamed : Nat
  capture_finished : Bool
  deriving DecidableEq

/-- PixelinkCamera.__init__ field defaults (the second, overriding __init__
of the source, which also initialises the video-recording fields); with
the SDK unavailable no device call is made and is_connected stays false. -/
def initCam : Cam where
  exposure := 100
  gain := 1
  gamma := 1
  exposure_min := mkRat 1 1000
  exposure_max := 10000
  gain_min := 1
  gain_max := 16
  gamma_min := mkRat 1 2
  gamma_max := 4
  gamma_supported := false
  auto_exposure_enabled := false
  auto_exposure_supported := false
  is_connected := false
  is_streaming := false
  is_recording := false
  num_images_streamed := 0
  capture_finished := false

/-- Outcomes of the device calls one update_settings call can make, one
field per call site (each feature is written at most once per update).
aeGetVal is the exposure in seconds that getFeature(EXPOSURE) reports
when _set_auto_exposure switches back to manual. -/
structure HwOracle where
  setExposureOk : Bool
  setGainOk : Bool
  setGammaOk : Bool
  aeStreamStartOk : Bool
  aeGetOk : Bool
  aeGetVal : ℚ
  aeSetOk : Bool
  deriving DecidableEq

/-- An oracle whose device calls all succeed, reporting 50 ms exposure. -/
def oracleAllOk : HwOracle :=
  { setExposureOk := true, setGainOk := true, setGammaOk := true,
    aeStreamStartOk := true, aeGetOk := true, aeGetVal := mkRat 1 20, aeSetOk := true }

/-- PixelinkCamera._set_exposure : with hardware (SDK available and camera
connected) clamp the requested value to the queried range, send
setFeature(EXPOSURE, MANUAL) in seconds, and store the clamped value (also
clearing the auto flag) only when the call succeeds; in simulated mode
store the requested value as given. -/
def set_exposure (pav : Bool) (o : HwOracle) (s : Cam) (exposure_ms : ℚ) : Cam :=
  if pav ∧ s.is_connected then
    let e := clampQ s.exposure_min s.exposure_max exposure_ms
    if o.setExposureOk then
      { s with exposure := e, auto_exposure_enabled := false }
    else s
  else { s with exposure := exposure_ms }

/-- PixelinkCamera._set_gain : same shape as _set_exposure, without the
auto flag. -/
def set_gain (pav : Bool) (o : HwOracle) (s : Cam) (gain : ℚ) : Cam :=
  if pav ∧ s.is_connected then
    let g := clampQ s.gain_min s.gain_max gain
    if o.setGainOk then { s with gain := g } else s
  else { s with gain := gain }

/-- PixelinkCamera._set_gamma : with hardware a no-op when the feature is
unsupported, otherwise as _set_gain; in simulated mode the value is stored
as given. -/
def set_gamma (pav : Bool) (o : HwOracle) (s : Cam) (gamma : ℚ) : Cam :=
  if pav ∧ s.is_connected then
    if s.gamma_supported = false then s
    else
      let g := clampQ s.gamma_min s.gamma_max gamma
      if o.setGammaOk then { s with gamma := g } else s
  else { s with gamma := gamma }

/-- PixelinkCamera._set_auto_exposure : with hardware, a no-op when the
feature is unsupported; otherwise make sure the device stream runs (a
failed stream start aborts); enabling sends setFeature(EXPOSURE, AUTO) and
records the flag on success; disabling first reads the camera-chosen
exposure into the store (a failed read aborts), then sends
setFeature(EXPOSURE, MANUAL) and records the flag on success.  In
simulated mode only the flag is recorded.  (The getFeature call the enable
path makes to fill the params array does not change the state.) -/
def set_auto_exposure (pav : Bool) (o : HwOracle) (s : Cam) (enabled : Bool) : Cam :=
  if pav ∧ s.is_connected then
    if s.auto_exposure_supported = false then s
    else
      match (if s.is_streaming then some s
             else if o.aeStreamStartOk then some { s with is_streaming := true }
             else none) with
      | none => s
      | some s1 =>
        if enabled then
          if o.aeSetOk then { s1 with auto_exposure_enabled := true } else s1
        else
          if o.aeGetOk then
            let s2 := { s1 with exposure := o.aeGetVal * 1000 }
            if o.aeSetOk then { s2 with auto_exposure_enabled := false } else s2
          else s1
  else { s with auto_exposure_enabled := enabled }

/-- The optional fields of one update_settings call. -/
structure UpdateReq where
  exposure : Option ℚ
  gain : Option ℚ
  gamma : Option ℚ
  auto_exposure : Option Bool
  deriving DecidableEq

/-- PixelinkCamera.update_settings : apply the auto_exposure field first,
then the manual exposure only when auto-exposure is disabled after that
first step, then gain, then gamma. -/
def update_settings (pav : Bool) (o : HwOracle) (s : Cam) (r : UpdateReq) : Cam :=
  let s1 := match r.auto_exposure with
    | some b => set_auto_exposure pav o s b
    | none => s
  let s2 := match r.exposure with
    | some e => if s1.auto_exposure_enabled then s1 else set_exposure pav o s1 e
    | none => s1
  let s3 := match r.gain with
    | some g => set_gain pav o s2 g
    | none => s2
  match r.gamma with
  | some g => set_gamma pav o s3 g
  | none => s3

/-- Every stored setting lies inside its queried bounds. -/
def SettingsInRange (s : Cam) : Prop :=
  s.exposure_min ≤ s.exposure ∧ s.exposure ≤ s.exposure_max ∧
  s.gain_min ≤ s.gain ∧ s.gain ≤ s.gain_max ∧
  s.gamma_min ≤ s.gamma ∧ s.gamma ≤ s.gamma_max

/-- Every queried lower bound is at most its upper bound. -/
def BoundsSane (s : Cam) : Prop :=
  s.exposure_min ≤ s.exposure_max ∧ s.gain_min ≤ s.gain_max ∧
  s.gamma_min ≤ s.gamma_max

/-- The connected-camera state the hardware setters preserve: connected,
sane bounds, and every stored setting inside its bounds. -/
def CamOk (s : Cam) : Prop := s.is_connected = true ∧ BoundsSane s ∧ SettingsInRange s

/-- One getFeature(EXPOSURE) answer during the one-time auto-exposure poll:
whether the call succeeded, whether the ONEPUSH flag is still set, and the
exposure in seconds it reports. -/
structure AePollResp where
  ok : Bool
  onePushSet : Bool
  val : ℚ
  deriving DecidableEq

/-- The device calls perform_one_time_auto_exposure makes: the stream
start, the setFeature(EXPOSURE, ONEPUSH) write, and the poll answers
(indexed by poll iteration). -/
structure AeOracle where
  streamStartOk : Bool
  onePushSetOk : Bool
  poll : Nat → AePollResp

/-- Poll iterations of the one-time auto-exposure wait: the loop runs
while elapsed < 5.0 s with elapsed advancing 0.1 s per iteration, so 50
iterations before the timeout. -/
def AE_MAX_POLLS : Nat := 50

/-- The poll loop of perform_one_time_auto_exposure: each iteration asks
getFeature(EXPOSURE); when the call succeeds and the ONEPUSH flag has
cleared, the camera-chosen exposure (seconds) is stored in milliseconds,
the auto flag cleared, and the operation reports success; running out of
iterations is the 5-second timeout, reported as failure. -/
def aePollLoop (o : AeOracle) (s : Cam) : Nat → Nat → Bool × Cam
  | _, 0 => (false, s)
  | i, n + 1 =>
    let r := o.poll i
    if r.ok = true ∧ r.onePushSet = false then
      (true, { s with exposure := r.val * 1000, auto_exposure_enabled := false })
    else aePollLoop o s (i + 1) n

/-- PixelinkCamera.perform_one_time_auto_exposure : fail without hardware
or when auto-exposure is unsupported; make sure the device stream runs (a
failed start fails the operation); send setFeature(EXPOSURE, ONEPUSH)
(a failed write fails the operation); then poll until the ONEPUSH flag
clears or the 5-second timeout elapses.  (The getFeature call that fills
the params array before the ONEPUSH write does not change the state.) -/
def perform_one_time_auto_exposure (pav : Bool) (o : AeOracle) (s : Cam) : Bool × Cam :=
  if ¬(pav ∧ s.is_connected) then (false, s)
  else if s.auto_exposure_supported = false then (false, s)
  else
    match (if s.is_streaming then some s
           else if o.streamStartOk then some { s with is_streaming := true }
           else none) with
    | none => (false, s)
    | some s1 =>
      if o.onePushSetOk = false then (false, s1)
      else aePollLoop o s1 0 AE_MAX_POLLS

/-- What the POST /capture endpoint reports for one snapshot request. -/
inductive SnapshotOutcome where
  | captured (img : Nat)
  | busyRejected
  | failed
  deriving DecidableEq, Repr

/-- PixelinkCamera.capture_image as invoked by the POST /capture endpoint
(main.py): optionally update settings (only when auto-exposure is off),
then on the hardware path make sure the device stream runs, read the
geometry (geomOk) and acquire one frame with the snapshot retry bound;
without hardware a simulated image is produced.  The third component is
the number of getNextFrame calls made.  No recording state is consulted
anywhere on this path: there is no Busy rejection for snapshots. -/
def capture_image (pav : Bool) (o : HwOracle) (streamOk geomOk : Bool)
    (a : FrameAdapter) (simImg : Nat) (s : Cam)
    (exposure gain gamma : Option ℚ) : SnapshotOutcome × Cam × Nat :=
  let s0 :=
    if (exposure.isSome ∨ gain.isSome ∨ gamma.isSome) ∧ s.auto_exposure_enabled = false then
      update_settings pav o s
        { exposure := exposure, gain := gain, gamma := gamma, auto_exposure := none }
    else s
  if pav ∧ s0.is_connected then
    match (if s0.is_streaming then some s0
           else if streamOk then some { s0 with is_streaming := true }
           else none) with
    | none => (.failed, s0, 0)
    | some s1 =>
      if geomOk then
        match capture_frame a SNAPSHOT_MAX_RETRIES with
        | (some img, n) => (.captured img, s1, n)
        | (none, n) => (.failed, s1, n)
      else (.failed, s1, 0)
  else (.captured simImg, s0, 0)

/-- How one start_video_recording call ends. -/
inductive VideoStartResult where
  | noCamera
  | alreadyRecording
  | streamStartFailed
  | clipStartFailed
  | started (expectedImages : Int)
  deriving DecidableEq, Repr

/-- Python int() on a float: truncation toward zero. -/
def pyTrunc (q : ℚ) : Int := if 0 ≤ q then ⌊q⌋ else ⌈q⌉

/-- PixelinkCamera.start_video_recording : fail without hardware; raise
Already-recording (the Busy rejection) when a recording is in flight;
make sure the device stream runs; compute the frame budget
num_images = int(duration * camera_fps / decimation); reset the recording
state and hand the budget to the asynchronous clip encoder (clipOk is the
getEncodedClip call's own result; on its failure is_recording is cleared
again).  camera_fps is what _get_effective_frame_rate returns from the
device.  The playback frame rate and output path only parametrize the
encoder and do not affect the state. -/
def start_video_recording (pav : Bool) (streamOk clipOk : Bool) (camera_fps : ℚ)
    (s : Cam) (duration : ℚ) (decimation : ℚ) : VideoStartResult × Cam :=
  if ¬(pav ∧ s.is_connected) then (.noCamera, s)
  else if s.is_recording then (.alreadyRecording, s)
  else
    match (if s.is_streaming then some s
           else if streamOk then some { s with is_streaming := true }
           else none) with
    | none => (.streamStartFailed, s)
    | some s1 =>
      let n := pyTrunc (duration * camera_fps / decimation)
      let s2 := { s1 with is_recording := true, capture_finished := false, num_images_streamed := 0 }
      if clipOk then (.started n, s2)
      else (.clipStartFailed, { s2 with is_recording := false })

/-- The getEncodedClip termination callback: records how many frame blocks
the SDK streamed and marks the capture finished. -/
def video_termination_callback (s : Cam) (frames : Nat) : Cam :=
  { s with num_images_streamed := frames, capture_finished := true }

/-- The descriptor stop_video_recording returns once the callback has
fired: numImages is the streamed frame count the callback recorded. -/
structure VideoDescriptor where
  numImages : Nat
  exposureTime : ℚ
  gain : ℚ
  gamma : ℚ
  deriving DecidableEq

def stop_video_descriptor (s : Cam) : VideoDescriptor :=
  { numImages := s.num_images_streamed, exposureTime := s.exposure,
    gain := s.gain, gamma := s.gamma }

/-! ## Theorems -/

theorem streamInv_init : StreamInv initStreamer := by
  simp [StreamInv, initStreamer]

theorem streamInv_clientStep (s : StreamerSt) (h : StreamInv s) (op : ClientOp) :
    StreamInv (clientStep s op).1 := by
  cases op with
  | add c =>
    simp only [clientStep, add_client]
    split
    · rename_i hc
      simp only [start_streaming, hc.2, Bool.false_eq_true, if_false]
      simp [StreamInv, Finset.insert_nonempty]
    · rename_i hc
      rcases hs : s.is_streaming with _ | _
      · exfalso
        have hreg : s.activeClients = ∅ := by
          rcases Finset.eq_empty_or_nonempty s.activeClients with h0 | h0
          · exact h0
          · exact absurd (h.mpr h0) (by simp [hs])
        exact hc ⟨by simp [hreg], hs⟩
      · simp [StreamInv, hs, Finset.insert_nonempty]
  | remove c =>
    simp only [clientStep, remove_client]
    split
    · rename_i hc
      simp only [stop_streaming, hc.2]
      simp only [Bool.true_eq_false, if_false]
      constructor
      · intro hfalse
        exact absurd hfalse (by simp)
      · intro hne
        exact absurd (Finset.card_eq_zero.mp hc.1) hne.ne_empty
    · rename_i hc
      rcases hs : s.is_streaming with _ | _
      · have hreg : s.activeClients = ∅ := by
          rcases Finset.eq_empty_or_nonempty s.activeClients with h0 | h0
          · exact h0
          · exact absurd (h.mpr h0) (by simp [hs])
        constructor
        · intro hfalse
          exact absurd hfalse (by simp [hs])
        · intro hne
          exact absurd hne (by simp [hreg])
      · have hcard : (s.activeClients.erase c).card ≠ 0 := fun h0 => hc ⟨h0, hs⟩
        constructor
        · intro _
          exact Finset.card_ne_zero.mp hcard
        · intro _
          rfl

theorem streamInv_runClientOps (s : StreamerSt) (h : StreamInv s) (ops : List ClientOp) :
    StreamInv (runClientOps s ops) := by
  induction ops generalizing s with
  | nil => exact h
  | cons op ops ih => exact ih _ (streamInv_clientStep s h op)

theorem add_client_fst_activeClients (s : StreamerSt) (c : Nat) :
    (add_client s c).1.activeClients = insert c s.activeClients := by
  simp only [add_client, start_streaming]
  split
  · split <;> rfl
  · rfl

theorem remove_client_fst_activeClients (s : StreamerSt) (c : Nat) :
    (remove_client s c).1.activeClients = s.activeClients.erase c := by
  simp only [remove_client, stop_streaming]
  split
  · split <;> rfl
  · rfl

theorem startRequested_mem_add_client (s : StreamerSt) (c : Nat) :
    StreamEvent.startRequested ∈ (add_client s c).2 ↔
      (insert c s.activeClients).card = 1 ∧ s.is_streaming = false := by
  simp only [add_client]
  split
  · rename_i hc
    simp only [start_streaming, hc.2, Bool.false_eq_true, if_false]
    simpa using hc.1
  · rename_i hc
    simpa using fun h1 h2 => hc ⟨h1, h2⟩

theorem stopRequested_mem_remove_client (s : StreamerSt) (c : Nat) :
    StreamEvent.stopRequested ∈ (remove_client s c).2 ↔
      (s.activeClients.erase c).card = 0 ∧ s.is_streaming = true := by
  simp only [remove_client]
  split
  · rename_i hc
    simp only [stop_streaming, hc.2, Bool.true_eq_false, if_false]
    simpa using hc.1
  · rename_i hc
    simpa using fun h1 h2 => hc ⟨h1, h2⟩

/-- C1: for every sequence of add_client / remove_client calls from the
initial engine state, after settling the engine streams iff the registry is
non-empty and is idle iff it is empty; from any such reached state, the next
add_client requests a streaming start exactly when the registry goes from
empty to one member with the engine not already streaming, and the next
remove_client requests a streaming stop exactly when the registry goes from
one member to empty. -/
theorem C1_registry_drives_start_stop (ops : List ClientOp) :
    ((runClientOps initStreamer ops).is_streaming = true ↔
      (runClientOps initStreamer ops).activeClients.Nonempty) ∧
    ((runClientOps initStreamer ops).is_streaming = false ↔
      (runClientOps initStreamer ops).activeClients = ∅) ∧
    (∀ c : Nat,
      (StreamEvent.startRequested ∈ (add_client (runClientOps initStreamer ops) c).2 ↔
        (runClientOps initStreamer ops).activeClients = ∅ ∧
          (add_client (runClientOps initStreamer ops) c).1.activeClients.card = 1 ∧
          (runClientOps initStreamer ops).is_streaming = false) ∧
      (StreamEvent.stopRequested ∈ (remove_client (runClientOps initStreamer ops) c).2 ↔
        (runClientOps initStreamer ops).activeClients.card = 1 ∧
          (remove_client (runClientOps initStreamer ops) c).1.activeClients = ∅)) := by
  have hinv := streamInv_runClientOps initStreamer streamInv_init ops
  set s := runClientOps initStreamer ops with hsdef
  have hidle : s.is_streaming = false ↔ s.activeClients = ∅ := by
    constructor
    · intro hf
      by_contra hne
      have := hinv.mpr (Finset.nonempty_of_ne_empty hne)
      rw [hf] at this
      exact Bool.false_ne_true this
    · intro he
      rcases hb : s.is_streaming with _ | _
      · rfl
      · exact absurd (hinv.mp hb) (by simp [he])
  refine ⟨hinv, hidle, fun c => ⟨?_, ?_⟩⟩
  · rw [startRequested_mem_add_client, add_client_fst_activeClients]
    constructor
    · rintro ⟨h1, h2⟩
      exact ⟨hidle.mp h2, h1, h2⟩
    · rintro ⟨-, hcard, hstr⟩
      exact ⟨hcard, hstr⟩
  · rw [stopRequested_mem_remove_client, remove_client_fst_activeClients]
    constructor
    · rintro ⟨h0, hstr⟩
      have hne := hinv.mp hstr
      have herase : s.activeClients.erase c = ∅ := Finset.card_eq_zero.mp h0
      rcases (Finset.erase_eq_empty_iff s.activeClients c).mp herase with h | h
      · exact absurd hne (by simp [h])
      · exact ⟨by simp [h], herase⟩
    · rintro ⟨hcard, hempty⟩
      have hne : s.activeClients.Nonempty := Finset.card_pos.mp (by omega)
      exact ⟨Finset.card_eq_zero.mpr hempty, hinv.mpr hne⟩

theorem getFrameLoop_calls_le (a : FrameAdapter) :
    ∀ fuel i, (getFrameLoop a fuel i).2 ≤ fuel := by
  intro fuel
  induction fuel with
  | zero => intro i; simp [getFrameLoop]
  | succ n ih =>
    intro i
    simp only [getFrameLoop]
    cases a.getNextFrame i with
    | success raw => simp
    | fatal => simp
    | transient => simpa using ih (i + 1)

/-- C2: frame acquisition makes at most max_retries getNextFrame calls,
with bound 3 on the continuous-streaming path and 4 on the one-shot
snapshot path; an adapter whose first call is fatal makes acquisition fail
after exactly one call; transient failures on the first two calls and
success on the third under bound 3 return the (formatted) frame of the
third call after exactly 3 calls. -/
theorem C2_capture_retry_bounds (a : FrameAdapter) :
    STREAMING_MAX_RETRIES = 3 ∧ SNAPSHOT_MAX_RETRIES = 4 ∧
    (∀ m, (capture_frame a m).2 ≤ m) ∧
    (a.getNextFrame 0 = .fatal → ∀ m, 1 ≤ m → capture_frame a m = (none, 1)) ∧
    (∀ raw img, a.getNextFrame 0 = .transient → a.getNextFrame 1 = .transient →
      a.getNextFrame 2 = .success raw → a.formatImage raw = some img →
      capture_frame a STREAMING_MAX_RETRIES = (some img, 3)) := by
  refine ⟨rfl, rfl, ?_, ?_, ?_⟩
  · intro m
    have h := getFrameLoop_calls_le a m 0
    unfold capture_frame
    rcases hres : getFrameLoop a m 0 with ⟨r, n⟩
    rw [hres] at h
    cases r <;> simpa using h
  · intro hfatal m hm
    cases m with
    | zero => omega
    | succ k => simp [capture_frame, getFrameLoop, hfatal]
  · intro raw img h0 h1 h2 himg
    simp [capture_frame, STREAMING_MAX_RETRIES, getFrameLoop, h0, h1, h2, himg]

/-- Witness for C2 at concrete adapters: a fatal first call gives failure
after one call; transient, transient, success gives the frame after three
calls under bound 3. -/
theorem C2_capture_retry_bounds_witness :
    (capture_frame
      { getNextFrame := fun _ => NextFrameResult.fatal,
        formatImage := fun r => some r } 3 = (none, 1)) ∧
    (capture_frame
      { getNextFrame := fun i => if i < 2 then NextFrameResult.transient
          else NextFrameResult.success 7,
        formatImage := fun r => some (r + 1) } 3 = (some 8, 3)) := by
  have h := C2_capture_retry_bounds
    { getNextFrame := fun _ => NextFrameResult.fatal,
      formatImage := fun r => some r }
  have h2 := C2_capture_retry_bounds
    { getNextFrame := fun i => if i < 2 then NextFrameResult.transient
        else NextFrameResult.success 7,
      formatImage := fun r => some (r + 1) }
  exact ⟨h.2.2.2.1 rfl 3 (by omega),
    h2.2.2.2.2 7 8 rfl rfl rfl rfl⟩

theorem broadcastSend_mem_fst (sendOk : Nat → Bool) (frame : Nat) (l : List Nat) (c : Nat) :
    c ∈ (broadcastSend sendOk frame l).1 ↔ c ∈ l ∧ sendOk c = false := by
  induction l with
  | nil => simp [broadcastSend]
  | cons d rest ih =>
    simp only [broadcastSend]
    by_cases hd : sendOk d = true
    · rw [if_pos hd]
      simp only [List.mem_cons, ih]
      constructor
      · rintro ⟨hc, hf⟩
        exact ⟨Or.inr hc, hf⟩
      · rintro ⟨hc | hc, hf⟩
        · subst hc
          rw [hd] at hf
          cases hf
        · exact ⟨hc, hf⟩
    · rw [if_neg hd]
      simp only [List.mem_cons, List.mem_cons, ih]
      rw [Bool.not_eq_true] at hd
      constructor
      · rintro (rfl | ⟨hc, hf⟩)
        · exact ⟨Or.inl rfl, hd⟩
        · exact ⟨Or.inr hc, hf⟩
      · rintro ⟨hc | hc, hf⟩
        · exact Or.inl hc
        · exact Or.inr ⟨hc, hf⟩

theorem broadcastSend_mem_snd (sendOk : Nat → Bool) (frame : Nat) (l : List Nat)
    (c f : Nat) :
    StreamEvent.sent c f ∈ (broadcastSend sendOk frame l).2 ↔
      c ∈ l ∧ sendOk c = true ∧ f = frame := by
  induction l with
  | nil => simp [broadcastSend]
  | cons d rest ih =>
    simp only [broadcastSend]
    by_cases hd : sendOk d = true
    · rw [if_pos hd]
      simp only [List.mem_cons, StreamEvent.sent.injEq, ih]
      constructor
      · rintro (⟨rfl, rfl⟩ | ⟨hc, hf, rfl⟩)
        · exact ⟨Or.inl rfl, hd, rfl⟩
        · exact ⟨Or.inr hc, hf, rfl⟩
      · rintro ⟨hc | hc, hf, rfl⟩
        · exact Or.inl ⟨hc, rfl⟩
        · exact Or.inr ⟨hc, hf, rfl⟩
    · rw [if_neg hd]
      simp only [List.mem_cons, ih]
      constructor
      · rintro ⟨hc, hf, rfl⟩
        exact ⟨Or.inr hc, hf, rfl⟩
      · rintro ⟨hc | hc, hf, rfl⟩
        · subst hc
          exact absurd hf hd
        · exact ⟨hc, hf, rfl⟩

theorem broadcastSend_snd_only_sent (sendOk : Nat → Bool) (frame : Nat) (l : List Nat) :
    ∀ e ∈ (broadcastSend sendOk frame l).2, ∃ c, e = StreamEvent.sent c frame := by
  induction l with
  | nil => simp [broadcastSend]
  | cons d rest ih =>
    simp only [broadcastSend]
    by_cases hd : sendOk d = true
    · rw [if_pos hd]
      intro e he
      rcases List.mem_cons.mp he with rfl | he
      · exact ⟨d, rfl⟩
      · exact ih e he
    · rw [if_neg hd]
      exact ih

theorem mem_foldl_erase (l : List Nat) (s : Finset Nat) (c : Nat) :
    c ∈ l.foldl (fun acc x => acc.erase x) s ↔ c ∈ s ∧ c ∉ l := by
  induction l generalizing s with
  | nil => simp
  | cons d rest ih =>
    simp only [List.foldl_cons, ih, Finset.mem_erase, List.mem_cons]
    constructor
    · rintro ⟨⟨hne, hs⟩, hrest⟩
      refine ⟨hs, ?_⟩
      rintro (rfl | h)
      · exact hne rfl
      · exact hrest h
    · rintro ⟨hs, hnot⟩
      exact ⟨⟨fun h => hnot (Or.inl h), hs⟩, fun h => hnot (Or.inr h)⟩

theorem stop_streaming_fst_activeClients (s : StreamerSt) :
    (stop_streaming s).1.activeClients = s.activeClients := by
  simp only [stop_streaming]
  split <;> rfl

theorem stop_streaming_fst_is_streaming (s : StreamerSt) :
    (stop_streaming s).1.is_streaming = false := by
  simp only [stop_streaming]
  split
  · rename_i h
    exact h
  · rfl

theorem broadcast_fold_eq_filter (sendOk : Nat → Bool) (frame : Nat) (s : StreamerSt) :
    ((broadcastSend sendOk frame (s.activeClients.sort (fun a b => a ≤ b))).1.foldl
      (fun acc x => acc.erase x) s.activeClients)
      = s.activeClients.filter (fun c => sendOk c = true) := by
  ext c
  rw [mem_foldl_erase, Finset.mem_filter]
  constructor
  · rintro ⟨hs, hno⟩
    rcases hok : sendOk c with _ | _
    · exact absurd ((broadcastSend_mem_fst sendOk frame _ c).mpr
        ⟨Finset.mem_sort (α := Nat) (fun a b => a ≤ b) |>.mpr hs, hok⟩) hno
    · exact ⟨hs, rfl⟩
  · rintro ⟨hs, hok⟩
    refine ⟨hs, fun hin => ?_⟩
    have := (broadcastSend_mem_fst sendOk frame _ c).mp hin
    rw [hok] at this
    exact absurd this.2 (by simp)

theorem broadcast_frame_clients (sendOk : Nat → Bool) (frame : Nat) (s : StreamerSt) :
    (broadcast_frame sendOk frame s).1.activeClients
      = s.activeClients.filter (fun c => sendOk c = true) := by
  unfold broadcast_frame
  split
  · rename_i h
    rw [h, Finset.filter_empty]
  · dsimp only
    split
    · rw [stop_streaming_fst_activeClients]
      exact broadcast_fold_eq_filter sendOk frame s
    · exact broadcast_fold_eq_filter sendOk frame s

theorem stop_streaming_snd_of_streaming (s : StreamerSt) (h : s.is_streaming = true) :
    (stop_streaming s).2 = [StreamEvent.stopRequested] := by
  simp [stop_streaming, h]

theorem broadcast_frame_of_empty (sendOk : Nat → Bool) (frame : Nat) (s : StreamerSt)
    (h : s.activeClients = ∅) : broadcast_frame sendOk frame s = (s, []) := by
  unfold broadcast_frame
  rw [if_pos h]

theorem broadcast_frame_events (sendOk : Nat → Bool) (frame : Nat) (s : StreamerSt)
    (h : ¬s.activeClients = ∅) :
    (broadcast_frame sendOk frame s).2
      = (broadcastSend sendOk frame (s.activeClients.sort (fun a b => a ≤ b))).2
        ++ (if s.activeClients.filter (fun c => sendOk c = true) = ∅ ∧ s.is_streaming = true
            then [StreamEvent.stopRequested] else []) := by
  unfold broadcast_frame
  rw [if_neg h]
  dsimp only
  split
  · rename_i hcond
    have hfilter : s.activeClients.filter (fun c => sendOk c = true) = ∅ := by
      rw [← broadcast_fold_eq_filter sendOk frame s]
      exact Finset.card_eq_zero.mp hcond.1
    rw [stop_streaming_snd_of_streaming]
    · rw [if_pos ⟨hfilter, hcond.2⟩]
    · exact hcond.2
  · rename_i hcond
    rw [if_neg, List.append_nil]
    rintro ⟨hf, hs⟩
    apply hcond
    refine ⟨?_, hs⟩
    rw [Finset.card_eq_zero, broadcast_fold_eq_filter sendOk frame s]
    exact hf

theorem broadcast_frame_streaming_stops (sendOk : Nat → Bool) (frame : Nat) (s : StreamerSt)
    (h : ¬s.activeClients = ∅)
    (hf : s.activeClients.filter (fun c => sendOk c = true) = ∅)
    (hs : s.is_streaming = true) :
    (broadcast_frame sendOk frame s).1.is_streaming = false := by
  unfold broadcast_frame
  rw [if_neg h]
  dsimp only
  split
  · exact stop_streaming_fst_is_streaming _
  · rename_i hcond
    exfalso
    apply hcond
    refine ⟨?_, hs⟩
    rw [Finset.card_eq_zero, broadcast_fold_eq_filter sendOk frame s]
    exact hf

/-- C8: during one broadcast a failed send removes exactly that client and
is never propagated: every client whose send works still receives the same
frame whatever happens to the others, the surviving registry is exactly
the clients whose send worked, and the engine requests a streaming stop
exactly when the pruned registry is empty while it was streaming. -/
theorem C8_broadcast_prunes_only_failed (sendOk : Nat → Bool) (frame : Nat) (s : StreamerSt) :
    (∀ c ∈ s.activeClients, sendOk c = true →
      StreamEvent.sent c frame ∈ (broadcast_frame sendOk frame s).2) ∧
    ((broadcast_frame sendOk frame s).1.activeClients
      = s.activeClients.filter (fun c => sendOk c = true)) ∧
    (∀ c ∈ s.activeClients, sendOk c = false →
      c ∉ (broadcast_frame sendOk frame s).1.activeClients) ∧
    (StreamEvent.stopRequested ∈ (broadcast_frame sendOk frame s).2 ↔
      s.activeClients ≠ ∅ ∧ (broadcast_frame sendOk frame s).1.activeClients = ∅ ∧
        s.is_streaming = true) ∧
    (s.activeClients ≠ ∅ → (broadcast_frame sendOk frame s).1.activeClients = ∅ →
      s.is_streaming = true → (broadcast_frame sendOk frame s).1.is_streaming = false) := by
  have hcl := broadcast_frame_clients sendOk frame s
  have hnotin : ∀ c ∈ s.activeClients, sendOk c = false →
      c ∉ (broadcast_frame sendOk frame s).1.activeClients := by
    intro c _ hbad hmem
    rw [hcl, Finset.mem_filter, hbad] at hmem
    exact absurd hmem.2 (by simp)
  by_cases hempty : s.activeClients = ∅
  · refine ⟨?_, hcl, hnotin, ?_, ?_⟩
    · intro c hc
      rw [hempty] at hc
      exact absurd hc (Finset.not_mem_empty c)
    · rw [broadcast_frame_of_empty sendOk frame s hempty]
      simp [hempty]
    · intro h
      exact absurd hempty h
  · have hsent : ∀ c ∈ s.activeClients, sendOk c = true →
        StreamEvent.sent c frame ∈ (broadcastSend sendOk frame
          (s.activeClients.sort (fun a b => a ≤ b))).2 := by
      intro c hc hok
      exact (broadcastSend_mem_snd sendOk frame _ c frame).mpr
        ⟨Finset.mem_sort (α := Nat) (fun a b => a ≤ b) |>.mpr hc, hok, rfl⟩
    have hev := broadcast_frame_events sendOk frame s hempty
    refine ⟨?_, hcl, hnotin, ?_, ?_⟩
    · intro c hc hok
      rw [hev]
      exact List.mem_append_left _ (hsent c hc hok)
    · rw [hev]
      constructor
      · intro hmem
        rcases List.mem_append.mp hmem with hmem | hmem
        · rcases broadcastSend_snd_only_sent sendOk frame _ _ hmem with ⟨c, hc⟩
          cases hc
        · by_cases hcnd : s.activeClients.filter (fun c => sendOk c = true) = ∅ ∧
              s.is_streaming = true
          · exact ⟨hempty, by rw [hcl]; exact hcnd.1, hcnd.2⟩
          · rw [if_neg hcnd] at hmem
            cases hmem
      · rintro ⟨-, hcl2, hstr⟩
        rw [hcl] at hcl2
        rw [if_pos ⟨hcl2, hstr⟩]
        exact List.mem_append_right _ (List.mem_singleton.mpr rfl)
    · intro _ hcl2 hstr
      rw [hcl] at hcl2
      exact broadcast_frame_streaming_stops sendOk frame s hempty hcl2 hstr

theorem stream_loop_iter_paused_no_call (hw : Bool) (cap : Option Nat)
    (sendOk : Nat → Bool) (s : StreamerSt) (hp : s.paused = true) :
    StreamEvent.getNextFrameCall ∉ (stream_loop_iter hw cap sendOk s).2 := by
  unfold stream_loop_iter
  by_cases h1 : s.is_streaming = false
  · rw [if_pos h1]
    simp
  · rw [if_neg h1]
    by_cases h2 : s.activeClients = ∅
    · rw [if_pos h2]
      cases hw <;> simp
    · rw [if_neg h2, if_pos hp]
      simp

theorem stepSys_preserves_paused (hw : Bool) (sendOk : Nat → Bool) (s : StreamerSt)
    (a : SysAction) (ha : a ≠ SysAction.resumeRequest) (hp : s.paused = true) :
    (stepSys hw sendOk s a).1.paused = true := by
  cases a with
  | loopIter cap =>
    simp only [stepSys]
    unfold stream_loop_iter
    by_cases h1 : s.is_streaming = false
    · rw [if_pos h1]
      exact hp
    · rw [if_neg h1]
      by_cases h2 : s.activeClients = ∅
      · rw [if_pos h2]
        exact hp
      · rw [if_neg h2, if_pos hp]
        exact hp
  | pauseRequest => rfl
  | resumeRequest => exact absurd rfl ha

theorem runSys_paused_no_call (hw : Bool) (sendOk : Nat → Bool) :
    ∀ (acts : List SysAction) (s : StreamerSt), s.paused = true →
      SysAction.resumeRequest ∉ acts →
      StreamEvent.getNextFrameCall ∉ (runSys hw sendOk s acts).2 := by
  intro acts
  induction acts with
  | nil =>
    intro s _ _
    simp [runSys]
  | cons a acts ih =>
    intro s hp hnores
    have hane : a ≠ SysAction.resumeRequest :=
      fun h => hnores (h ▸ List.mem_cons_self a acts)
    have hrest : SysAction.resumeRequest ∉ acts :=
      fun h => hnores (List.mem_cons_of_mem a h)
    intro hmem
    rcases List.mem_append.mp hmem with h | h
    · cases a with
      | loopIter cap => exact stream_loop_iter_paused_no_call hw cap sendOk s hp h
      | pauseRequest => simp [stepSys] at h
      | resumeRequest => exact hane rfl
    · exact ih _ (stepSys_preserves_paused hw sendOk s a hane hp) hrest h

/-- C4: once pause_streaming has set the paused flag, and until
resume_streaming clears it, no interleaving of run-loop iterations and
further pause requests issues a getNextFrame call toward the device
adapter (the paused check and the capture dispatch share one synchronous
block of the event loop, which is why a pause observed at the top of an
iteration suppresses the device call of that whole iteration); and the
only caller of pause_streaming, the capture endpoint, requests a pause
only when the engine is in the active streaming state. -/
theorem C4_pause_quiesces_device (hw : Bool) (sendOk : Nat → Bool)
    (s : StreamerSt) (acts : List SysAction)
    (hp : s.paused = true)
    (hnores : SysAction.resumeRequest ∉ acts) :
    StreamEvent.getNextFrameCall ∉ (runSys hw sendOk s acts).2 ∧
    (∀ st : StreamerSt, SysAction.pauseRequest ∈ capture_endpoint_pause_actions st →
      st.is_streaming = true) := by
  refine ⟨runSys_paused_no_call hw sendOk acts s hp hnores, ?_⟩
  intro st h
  by_cases hs : st.is_streaming = true
  · exact hs
  · unfold capture_endpoint_pause_actions at h
    rw [if_neg hs] at h
    cases h

/-- Witness for C4 at a concrete paused engine state and a concrete
schedule of loop iterations and a second pause request. -/
theorem C4_pause_quiesces_device_witness :
    StreamEvent.getNextFrameCall ∉ (runSys true (fun _ => true)
      { activeClients := {1}, is_streaming := true, paused := true, current_frame := none }
      [SysAction.loopIter (some 5), SysAction.pauseRequest, SysAction.loopIter none]).2 ∧
    (∀ st : StreamerSt, SysAction.pauseRequest ∈ capture_endpoint_pause_actions st →
      st.is_streaming = true) :=
  C4_pause_quiesces_device true (fun _ => true)
    { activeClients := {1}, is_streaming := true, paused := true, current_frame := none }
    [SysAction.loopIter (some 5), SysAction.pauseRequest, SysAction.loopIter none]
    rfl (by decide)

theorem clampQ_lower (lo hi x : ℚ) : lo ≤ clampQ lo hi x := le_max_left lo (min x hi)

theorem clampQ_upper (lo hi x : ℚ) (h : lo ≤ hi) : clampQ lo hi x ≤ hi :=
  max_le h (min_le_right x hi)

theorem set_exposure_camOk (o : HwOracle) (s : Cam) (e : ℚ) (h : CamOk s) :
    CamOk (set_exposure true o s e) := by
  obtain ⟨hconn, hb, hin⟩ := h
  unfold set_exposure
  rw [if_pos ⟨rfl, hconn⟩]
  dsimp only
  split
  · obtain ⟨hbe, hbg, hbgm⟩ := hb
    obtain ⟨h1, h2, h3, h4, h5, h6⟩ := hin
    exact ⟨hconn, ⟨hbe, hbg, hbgm⟩,
      clampQ_lower _ _ _, clampQ_upper _ _ _ hbe, h3, h4, h5, h6⟩
  · exact ⟨hconn, hb, hin⟩

theorem set_gain_camOk (o : HwOracle) (s : Cam) (g : ℚ) (h : CamOk s) :
    CamOk (set_gain true o s g) := by
  obtain ⟨hconn, hb, hin⟩ := h
  unfold set_gain
  rw [if_pos ⟨rfl, hconn⟩]
  dsimp only
  split
  · obtain ⟨hbe, hbg, hbgm⟩ := hb
    obtain ⟨h1, h2, h3, h4, h5, h6⟩ := hin
    exact ⟨hconn, ⟨hbe, hbg, hbgm⟩,
      h1, h2, clampQ_lower _ _ _, clampQ_upper _ _ _ hbg, h5, h6⟩
  · exact ⟨hconn, hb, hin⟩

theorem set_gamma_camOk (o : HwOracle) (s : Cam) (g : ℚ) (h : CamOk s) :
    CamOk (set_gamma true o s g) := by
  obtain ⟨hconn, hb, hin⟩ := h
  unfold set_gamma
  rw [if_pos ⟨rfl, hconn⟩]
  split
  · exact ⟨hconn, hb, hin⟩
  · dsimp only
    split
    · obtain ⟨hbe, hbg, hbgm⟩ := hb
      obtain ⟨h1, h2, h3, h4, h5, h6⟩ := hin
      exact ⟨hconn, ⟨hbe, hbg, hbgm⟩,
        h1, h2, h3, h4, clampQ_lower _ _ _, clampQ_upper _ _ _ hbgm⟩
    · exact ⟨hconn, hb, hin⟩

/-- C9: with a hardware camera connected, each setter leaves the whole
camera state (hence what get_settings returns) exactly unchanged when the
adapter setFeature call fails, and stores the clamped request when it
succeeds. -/
theorem C9_failed_set_retains_previous (o : HwOracle) (s : Cam) (e g gm : ℚ)
    (hconn : s.is_connected = true) :
    (o.setExposureOk = false → set_exposure true o s e = s) ∧
    (o.setGainOk = false → set_gain true o s g = s) ∧
    (o.setGammaOk = false → set_gamma true o s gm = s) ∧
    (o.setExposureOk = true →
      (set_exposure true o s e).exposure = clampQ s.exposure_min s.exposure_max e) ∧
    (o.setGainOk = true →
      (set_gain true o s g).gain = clampQ s.gain_min s.gain_max g) ∧
    (s.gamma_supported = true → o.setGammaOk = true →
      (set_gamma true o s gm).gamma = clampQ s.gamma_min s.gamma_max gm) := by
  refine ⟨?_, ?_, ?_, ?_, ?_, ?_⟩
  · intro hf
    unfold set_exposure
    rw [if_pos ⟨rfl, hconn⟩]
    dsimp only
    rw [hf]
    simp
  · intro hf
    unfold set_gain
    rw [if_pos ⟨rfl, hconn⟩]
    dsimp only
    rw [hf]
    simp
  · intro hf
    unfold set_gamma
    rw [if_pos ⟨rfl, hconn⟩]
    split
    · rfl
    · dsimp only
      rw [hf]
      simp
  · intro ht
    unfold set_exposure
    rw [if_pos ⟨rfl, hconn⟩]
    dsimp only
    rw [ht]
    simp
  · intro ht
    unfold set_gain
    rw [if_pos ⟨rfl, hconn⟩]
    dsimp only
    rw [ht]
    simp
  · intro hsup ht
    unfold set_gamma
    rw [if_pos ⟨rfl, hconn⟩]
    rw [if_neg (by rw [hsup]; simp)]
    dsimp only
    rw [ht]
    simp

/-- Witness for C9: a failing setFeature(EXPOSURE) call against a concrete
connected camera leaves the state unchanged. -/
theorem C9_failed_set_retains_previous_witness :
    set_exposure true { oracleAllOk with setExposureOk := false }
      { initCam with is_connected := true } 5 = { initCam with is_connected := true } :=
  (C9_failed_set_retains_previous { oracleAllOk with setExposureOk := false }
    { initCam with is_connected := true } 5 0 0 rfl).1 rfl

/-- C5 counterexample: the claim fails on the code.  In simulated mode
(camera not connected) update_settings stores the requested exposure with
no clamping: requesting 20000 ms against the queried bound
exposure_max = 10000 stores 20000.  With hardware, disabling auto-exposure
stores the camera-reported read-back (here 20 s = 20000 ms) with no
clamping either, so that path too ends outside the queried bounds. -/
theorem C5_counterexample_unclamped_store :
    ((update_settings false oracleAllOk initCam
        { exposure := some 20000, gain := none, gamma := none, auto_exposure := none }).exposure
          = 20000 ∧
      (update_settings false oracleAllOk initCam
        { exposure := some 20000, gain := none, gamma := none, auto_exposure := none }).exposure_max
          = 10000 ∧
      ¬(update_settings false oracleAllOk initCam
        { exposure := some 20000, gain := none, gamma := none, auto_exposure := none }).exposure
          ≤ 10000) ∧
    ((update_settings true { oracleAllOk with aeGetVal := 20 }
        { initCam with is_connected := true, auto_exposure_supported := true, is_streaming := true }
        { exposure := none, gain := none, gamma := none, auto_exposure := some false }).exposure
          = 20000 ∧
      ¬(update_settings true { oracleAllOk with aeGetVal := 20 }
        { initCam with is_connected := true, auto_exposure_supported := true, is_streaming := true }
        { exposure := none, gain := none, gamma := none, auto_exposure := some false }).exposure
          ≤ 10000) := by
  refine ⟨⟨by decide, by decide, by decide⟩, ?_, ?_⟩
  · show (20 : ℚ) * 1000 = 20000
    norm_num
  · show ¬((20 : ℚ) * 1000 ≤ 10000)
    norm_num

/-- C5 amended: with the SDK available and the camera connected, and for
updates of the exposure/gain/gamma fields (the auto_exposure disable path
instead stores an unclamped camera read-back), every written value is
clamped to the queried bounds before being stored or sent, so stored
settings that start inside their (sane) bounds are still inside them after
the update; the simulated path stores values unclamped. -/
theorem C5_clamped_when_connected (o : HwOracle) (s : Cam)
    (re rg rgm : Option ℚ)
    (hconn : s.is_connected = true) (hb : BoundsSane s) (hin : SettingsInRange s) :
    SettingsInRange (update_settings true o s
      { exposure := re, gain := rg, gamma := rgm, auto_exposure := none }) := by
  rcases s with ⟨se, sg, sgm, semin, semax, sgmin, sgmax, sgmmin, sgmmax,
    sgms, sae, saes, sconn, sstr, srec, snis, scf⟩
  have h1 : CamOk ⟨se, sg, sgm, semin, semax, sgmin, sgmax, sgmmin, sgmmax,
      sgms, sae, saes, sconn, sstr, srec, snis, scf⟩ := ⟨hconn, hb, hin⟩
  cases sae with
  | false =>
    rcases re with _ | e
    · rcases rg with _ | g
      · rcases rgm with _ | gm
        · exact hin
        · exact (set_gamma_camOk o _ gm h1).2.2
      · rcases rgm with _ | gm
        · exact (set_gain_camOk o _ g h1).2.2
        · exact (set_gamma_camOk o _ gm (set_gain_camOk o _ g h1)).2.2
    · rcases rg with _ | g
      · rcases rgm with _ | gm
        · exact (set_exposure_camOk o _ e h1).2.2
        · exact (set_gamma_camOk o _ gm (set_exposure_camOk o _ e h1)).2.2
      · rcases rgm with _ | gm
        · exact (set_gain_camOk o _ g (set_exposure_camOk o _ e h1)).2.2
        · exact (set_gamma_camOk o _ gm
            (set_gain_camOk o _ g (set_exposure_camOk o _ e h1))).2.2
  | true =>
    rcases re with _ | e <;> rcases rg with _ | g <;> rcases rgm with _ | gm
    · exact hin
    · exact (set_gamma_camOk o _ gm h1).2.2
    · exact (set_gain_camOk o _ g h1).2.2
    · exact (set_gamma_camOk o _ gm (set_gain_camOk o _ g h1)).2.2
    · exact hin
    · exact (set_gamma_camOk o _ gm h1).2.2
    · exact (set_gain_camOk o _ g h1).2.2
    · exact (set_gamma_camOk o _ gm (set_gain_camOk o _ g h1)).2.2

/-- Witness for C5 as amended: a connected camera asked for 20000 ms still
holds settings inside the queried bounds afterwards. -/
theorem C5_clamped_when_connected_witness :
    SettingsInRange (update_settings true oracleAllOk
      { initCam with is_connected := true }
      { exposure := some 20000, gain := none, gamma := none, auto_exposure := none }) :=
  C5_clamped_when_connected oracleAllOk { initCam with is_connected := true }
    (some 20000) none none rfl
    (by unfold BoundsSane; decide)
    (by unfold SettingsInRange; decide)

theorem set_auto_exposure_enable_exposure (pav : Bool) (o : HwOracle) (s : Cam) :
    (set_auto_exposure pav o s true).exposure = s.exposure := by
  rcases o with ⟨oe, og, ogm, oss, ogk, ogv, osk⟩
  rcases s with ⟨se, sg, sgm, semin, semax, sgmin, sgmax, sgmmin, sgmmax,
    sgms, sae, saes, sconn, sstr, srec, snis, scf⟩
  cases pav <;> cases sconn <;> cases saes <;> cases sstr <;> cases oss <;> cases osk <;> rfl

theorem set_gain_exposure (pav : Bool) (o : HwOracle) (s : Cam) (g : ℚ) :
    (set_gain pav o s g).exposure = s.exposure := by
  unfold set_gain
  split
  · dsimp only
    split <;> rfl
  · rfl

theorem set_gamma_exposure (pav : Bool) (o : HwOracle) (s : Cam) (g : ℚ) :
    (set_gamma pav o s g).exposure = s.exposure := by
  unfold set_gamma
  split
  · split
    · rfl
    · dsimp only
      split <;> rfl
  · rfl

/-- C10 counterexample: when the auto-exposure enable attempt does not take
effect (here: a connected hardware camera that does not support
auto-exposure), an update_settings call that both enables auto-exposure
and supplies a manual exposure value still applies the manual value: the
stored exposure ends at 50, not at the prior 100, so the supplied value is
not ignored. -/
theorem C10_counterexample_exposure_not_ignored :
    (update_settings true oracleAllOk { initCam with is_connected := true }
      { exposure := some 50, gain := none, gamma := none,
        auto_exposure := some true }).exposure = 50 ∧
    initCam.exposure = 100 := by
  constructor <;> decide

/-- C10 amended: update_settings applies the autoExposure field first and
performs the manual exposure write only when auto-exposure is disabled
after that first step.  When the enable attempt takes effect (always in
simulated mode; with hardware when the feature is supported and the device
calls succeed), a supplied manual exposure value is ignored; when the
enable attempt leaves auto-exposure disabled (unsupported feature or a
failed device call), the supplied value is applied through _set_exposure. -/
theorem C10_auto_exposure_applied_before_exposure (pav : Bool) (o : HwOracle) (s : Cam)
    (e : ℚ) (rg rgm : Option ℚ) :
    ((set_auto_exposure pav o s true).auto_exposure_enabled = true →
      (update_settings pav o s
        { exposure := some e, gain := rg, gamma := rgm,
          auto_exposure := some true }).exposure = s.exposure) ∧
    ((set_auto_exposure pav o s true).auto_exposure_enabled = false →
      (update_settings pav o s
        { exposure := some e, gain := rg, gamma := rgm,
          auto_exposure := some true }).exposure
        = (set_exposure pav o (set_auto_exposure pav o s true) e).exposure) ∧
    (pav = false →
      (update_settings pav o s
        { exposure := some e, gain := none, gamma := none,
          auto_exposure := some true }).exposure = s.exposure) := by
  refine ⟨?_, ?_, ?_⟩
  · intro hen
    rcases rg with _ | g <;> rcases rgm with _ | gm <;>
      simp only [update_settings, set_gamma_exposure, set_gain_exposure] <;>
      rw [if_pos hen] <;>
      exact set_auto_exposure_enable_exposure pav o s
  · intro hen
    have hne : ¬((set_auto_exposure pav o s true).auto_exposure_enabled = true) := by
      simp [hen]
    rcases rg with _ | g <;> rcases rgm with _ | gm <;>
      simp only [update_settings, set_gamma_exposure, set_gain_exposure] <;>
      rw [if_neg hne]
  · intro hp
    subst hp
    simp only [update_settings]
    rw [if_pos (show (set_auto_exposure false o s true).auto_exposure_enabled = true from rfl)]
    exact set_auto_exposure_enable_exposure false o s

theorem aePollLoop_timeout (o : AeOracle) (s : Cam) :
    ∀ (n i : Nat),
      (∀ j, j < n → ¬((o.poll (i + j)).ok = true ∧ (o.poll (i + j)).onePushSet = false)) →
      aePollLoop o s i n = (false, s) := by
  intro n
  induction n with
  | zero =>
    intro i _
    rfl
  | succ m ih =>
    intro i h
    unfold aePollLoop
    rw [if_neg (by simpa using h 0 (Nat.succ_pos m))]
    exact ih (i + 1) (fun j hj => by
      have hpre := h (j + 1) (by omega)
      rwa [show i + (j + 1) = i + 1 + j by omega] at hpre)

theorem aePollLoop_success (o : AeOracle) (s : Cam) :
    ∀ (n i k : Nat), k < n →
      (∀ j, j < k → ¬((o.poll (i + j)).ok = true ∧ (o.poll (i + j)).onePushSet = false)) →
      (o.poll (i + k)).ok = true → (o.poll (i + k)).onePushSet = false →
      aePollLoop o s i n
        = (true,
            { s with exposure := (o.poll (i + k)).val * 1000, auto_exposure_enabled := false }) := by
  intro n
  induction n with
  | zero =>
    intro i k hk _ _ _
    exact absurd hk (Nat.not_lt_zero k)
  | succ m ih =>
    intro i k hk hbefore hok hclear
    unfold aePollLoop
    cases k with
    | zero =>
      rw [if_pos ⟨by simpa using hok, by simpa using hclear⟩]
      rw [Nat.add_zero]
    | succ k' =>
      have h0 : ¬((o.poll i).ok = true ∧ (o.poll i).onePushSet = false) := by
        simpa using hbefore 0 (Nat.succ_pos k')
      rw [if_neg h0]
      have hrec := ih (i + 1) k' (by omega)
        (fun j hj => by
          have hpre := hbefore (j + 1) (by omega)
          rwa [show i + (j + 1) = i + 1 + j by omega] at hpre)
        (by rwa [show i + 1 + k' = i + (k' + 1) by omega])
        (by rwa [show i + 1 + k' = i + (k' + 1) by omega])
      rw [hrec, show i + 1 + k' = i + (k' + 1) by omega]

/-- C6: perform_one_time_auto_exposure returns failure when the
auto-exposure feature is unsupported (state unchanged) and when the
required hardware stream start fails; with the stream active and the
setFeature(EXPOSURE, ONEPUSH) write accepted, it polls getFeature until
the ONEPUSH flag clears: at the first clearing poll inside the 50-poll
(5-second) budget it returns success with the camera-chosen exposure
stored in milliseconds, the auto flag cleared and the hardware stream
still running; when the flag never clears within the budget it returns
failure (a return value, not a crash). -/
theorem C6_one_time_auto_exposure (o : AeOracle) (s : Cam) (k : Nat) :
    (s.auto_exposure_supported = false →
      perform_one_time_auto_exposure true o s = (false, s)) ∧
    (s.is_connected = true → s.auto_exposure_supported = true →
      s.is_streaming = false → o.streamStartOk = false →
      perform_one_time_auto_exposure true o s = (false, s)) ∧
    (s.is_connected = true → s.auto_exposure_supported = true →
      s.is_streaming = true → o.onePushSetOk = true →
      k < AE_MAX_POLLS →
      (∀ j, j < k → ¬((o.poll j).ok = true ∧ (o.poll j).onePushSet = false)) →
      (o.poll k).ok = true → (o.poll k).onePushSet = false →
      perform_one_time_auto_exposure true o s
        = (true,
            { s with exposure := (o.poll k).val * 1000, auto_exposure_enabled := false })) ∧
    (s.is_connected = true → s.auto_exposure_supported = true →
      s.is_streaming = false → o.streamStartOk = true → o.onePushSetOk = true →
      k < AE_MAX_POLLS →
      (∀ j, j < k → ¬((o.poll j).ok = true ∧ (o.poll j).onePushSet = false)) →
      (o.poll k).ok = true → (o.poll k).onePushSet = false →
      perform_one_time_auto_exposure true o s
        = (true,
            { s with is_streaming := true, exposure := (o.poll k).val * 1000, auto_exposure_enabled := false })) ∧
    (s.is_connected = true → s.auto_exposure_supported = true →
      s.is_streaming = true → o.onePushSetOk = true →
      (∀ j, j < AE_MAX_POLLS → ¬((o.poll j).ok = true ∧ (o.poll j).onePushSet = false)) →
      (perform_one_time_auto_exposure true o s).1 = false) := by
  refine ⟨?_, ?_, ?_, ?_, ?_⟩
  · intro hsup
    unfold perform_one_time_auto_exposure
    by_cases hconn : s.is_connected = true
    · rw [if_neg (by simp [hconn])]
      rw [if_pos hsup]
    · rw [if_pos (by simp [hconn])]
  · intro hconn hsup hstr hss
    unfold perform_one_time_auto_exposure
    rw [if_neg (by simp [hconn]), if_neg (by simp [hsup])]
    rw [if_neg (by simp [hstr]), if_neg (by simp [hss])]
  · intro hconn hsup hstr hpush hk hbefore hok hclear
    unfold perform_one_time_auto_exposure
    rw [if_neg (by simp [hconn]), if_neg (by simp [hsup]), if_pos hstr]
    dsimp only
    rw [if_neg (by simp [hpush])]
    have := aePollLoop_success o s AE_MAX_POLLS 0 k hk
      (fun j hj => by simpa using hbefore j hj)
      (by simpa using hok) (by simpa using hclear)
    rw [this]
    rw [show (0 : Nat) + k = k from Nat.zero_add k]
  · intro hconn hsup hstr hss hpush hk hbefore hok hclear
    unfold perform_one_time_auto_exposure
    rw [if_neg (by simp [hconn]), if_neg (by simp [hsup])]
    rw [if_neg (by simp [hstr]), if_pos hss]
    dsimp only
    rw [if_neg (by simp [hpush])]
    have := aePollLoop_success o { s with is_streaming := true } AE_MAX_POLLS 0 k hk
      (fun j hj => by simpa using hbefore j hj)
      (by simpa using hok) (by simpa using hclear)
    rw [this]
    rw [show (0 : Nat) + k = k from Nat.zero_add k]
  · intro hconn hsup hstr hpush htimeout
    unfold perform_one_time_auto_exposure
    rw [if_neg (by simp [hconn]), if_neg (by simp [hsup]), if_pos hstr]
    dsimp only
    rw [if_neg (by simp [hpush])]
    rw [aePollLoop_timeout o s AE_MAX_POLLS 0
      (fun j hj => by simpa using htimeout j hj)]

/-- Witness for C6: a concrete oracle whose ONEPUSH flag clears on the
third poll makes the operation succeed and store the camera-chosen
exposure (0.5 s = 500 ms). -/
theorem C6_one_time_auto_exposure_witness :
    perform_one_time_auto_exposure true
      { streamStartOk := true, onePushSetOk := true, poll := fun j => if j < 2 then { ok := true, onePushSet := true, val := 1 } else { ok := true, onePushSet := false, val := mkRat 1 2 } }
      { initCam with is_connected := true, auto_exposure_supported := true, is_streaming := true }
      = (true, { initCam with is_connected := true, auto_exposure_supported := true, is_streaming := true, exposure := mkRat 1 2 * 1000, auto_exposure_enabled := false }) :=
  (C6_one_time_auto_exposure
    { streamStartOk := true, onePushSetOk := true, poll := fun j => if j < 2 then { ok := true, onePushSet := true, val := 1 } else { ok := true, onePushSet := false, val := mkRat 1 2 } }
    { initCam with is_connected := true, auto_exposure_supported := true, is_streaming := true }
    2).2.2.1 rfl rfl rfl rfl (by decide) (by decide) (by decide) (by decide)

theorem capture_image_never_busy (pav : Bool) (o : HwOracle) (streamOk geomOk : Bool)
    (a : FrameAdapter) (simImg : Nat) (s : Cam) (e g gm : Option ℚ) :
    (capture_image pav o streamOk geomOk a simImg s e g gm).1
      ≠ SnapshotOutcome.busyRejected := by
  unfold capture_image
  dsimp only
  repeat' split
  all_goals simp

theorem aePollLoop_fst_indep (o : AeOracle) (s t : Cam) :
    ∀ n i, (aePollLoop o s i n).1 = (aePollLoop o t i n).1 := by
  intro n
  induction n with
  | zero =>
    intro i
    rfl
  | succ m ih =>
    intro i
    unfold aePollLoop
    by_cases hc : (o.poll i).ok = true ∧ (o.poll i).onePushSet = false
    · rw [if_pos hc, if_pos hc]
    · rw [if_neg hc, if_neg hc]
      exact ih (i + 1)

theorem perform_ae_fst_ignores_recording (oa : AeOracle) (t : Cam) :
    (perform_one_time_auto_exposure true oa { t with is_recording := true }).1
      = (perform_one_time_auto_exposure true oa t).1 := by
  rcases t with ⟨se, sg, sgm, semin, semax, sgmin, sgmax, sgmmin, sgmmax,
    sgms, sae, saes, sconn, sstr, srec, snis, scf⟩
  rcases oa with ⟨oss, opk, opoll⟩
  cases sconn <;> cases saes <;> cases sstr <;> cases oss <;> cases opk <;>
    first
      | rfl
      | exact aePollLoop_fst_indep _ _ _ _ _

/-- C3 counterexample: while a video recording is in flight
(is_recording = true on a connected, streaming camera), a snapshot request
is executed against the device (outcome captured, one getNextFrame call
made) and a one-time auto-exposure request runs to success; neither is
rejected, so the claim that every pair of exclusive operations rejects the
second with Busy is false on the code. -/
theorem C3_counterexample_snapshot_during_recording :
    ((capture_image true oracleAllOk true true { getNextFrame := fun _ => NextFrameResult.success 7, formatImage := fun r => some r } 9 { initCam with is_connected := true, is_streaming := true, is_recording := true } none none none).1 = SnapshotOutcome.captured 7 ∧
      (capture_image true oracleAllOk true true { getNextFrame := fun _ => NextFrameResult.success 7, formatImage := fun r => some r } 9 { initCam with is_connected := true, is_streaming := true, is_recording := true } none none none).2.2 = 1) ∧
    (perform_one_time_auto_exposure true { streamStartOk := true, onePushSetOk := true, poll := fun _ => { ok := true, onePushSet := false, val := 1 } } { initCam with is_connected := true, is_streaming := true, is_recording := true, auto_exposure_supported := true }).1 = true := by
  refine ⟨⟨?_, ?_⟩, ?_⟩ <;> decide

/-- C3 amended: only the video-recording start checks for an in-flight
exclusive operation: start_video_recording while is_recording holds fails
with the Already-recording error and leaves the state unchanged, so the
in-flight recording is unaffected.  Snapshot capture and one-time
auto-exposure perform no such check: a snapshot request never returns a
Busy rejection, and one-time auto-exposure behaves identically whether or
not a recording is in flight. -/
theorem C3_only_video_start_rejects_busy (streamOk clipOk geomOk : Bool)
    (fps : ℚ) (s : Cam) (dur dec : ℚ) (o : HwOracle) (a : FrameAdapter) (simImg : Nat)
    (e g gm : Option ℚ) (oa : AeOracle)
    (hconn : s.is_connected = true) (hrec : s.is_recording = true) :
    start_video_recording true streamOk clipOk fps s dur dec
      = (VideoStartResult.alreadyRecording, s) ∧
    (capture_image true o streamOk geomOk a simImg s e g gm).1
      ≠ SnapshotOutcome.busyRejected ∧
    (∀ t : Cam, (perform_one_time_auto_exposure true oa { t with is_recording := true }).1
      = (perform_one_time_auto_exposure true oa t).1) := by
  refine ⟨?_, capture_image_never_busy true o streamOk geomOk a simImg s e g gm, ?_⟩
  · unfold start_video_recording
    rw [if_neg (by simp [hconn]), if_pos hrec]
  · intro t
    exact perform_ae_fst_ignores_recording oa t

/-- Witness for C3 as amended: a concrete second video start against a
recording camera is rejected with the state untouched. -/
theorem C3_only_video_start_rejects_busy_witness :
    start_video_recording true true true 30
      { initCam with is_connected := true, is_recording := true } 2 1
      = (VideoStartResult.alreadyRecording,
          { initCam with is_connected := true, is_recording := true }) :=
  (C3_only_video_start_rejects_busy true true true 30
    { initCam with is_connected := true, is_recording := true } 2 1
    oracleAllOk { getNextFrame := fun _ => NextFrameResult.fatal, formatImage := fun r => some r } 0
    none none none
    { streamStartOk := true, onePushSetOk := true, poll := fun _ => { ok := true, onePushSet := true, val := 1 } }
    rfl rfl).1

/-- C7: the video frame budget start_video_recording hands to the clip
encoder is int(duration * deviceFrameRate / decimation), truncated toward
zero as Python int() does; with duration 2 s, device frame rate 30 and
decimation 1 the budget is 60, and the descriptor built when the
recording finishes reports the frame count the termination callback
recorded, which is at most the budget whenever the encoder delivers at
most the frames it was asked for. -/
theorem C7_video_frame_budget (s : Cam) (frames : Nat)
    (hconn : s.is_connected = true) (hrec : s.is_recording = false)
    (hframes : frames ≤ 60) :
    pyTrunc (2 * 30 / 1) = 60 ∧
    (start_video_recording true true true 30 s 2 1).1 = VideoStartResult.started 60 ∧
    (stop_video_descriptor (video_termination_callback
      ((start_video_recording true true true 30 s 2 1).2) frames)).numImages = frames ∧
    (stop_video_descriptor (video_termination_callback
      ((start_video_recording true true true 30 s 2 1).2) frames)).numImages ≤ 60 := by
  have hbudget : pyTrunc (2 * 30 / 1) = 60 := by
    unfold pyTrunc
    rw [if_pos (by norm_num)]
    rw [show (2 * 30 / 1 : ℚ) = ((60 : ℤ) : ℚ) by norm_num, Int.floor_intCast]
  refine ⟨hbudget, ?_, rfl, hframes⟩
  unfold start_video_recording
  rw [if_neg (by simp [hconn]), if_neg (by simp [hrec])]
  by_cases hstr : s.is_streaming = true
  · rw [if_pos hstr]
    dsimp only
    rw [if_pos rfl]
    dsimp only
    rw [hbudget]
  · rw [if_neg hstr, if_pos rfl]
    dsimp only
    rw [if_pos rfl]
    dsimp only
    rw [hbudget]

/-- Witness for C7 at a concrete connected camera and a callback that
reports 42 streamed frames. -/
theorem C7_video_frame_budget_witness :
    pyTrunc (2 * 30 / 1) = 60 ∧
    (start_video_recording true true true 30 { initCam with is_connected := true } 2 1).1
      = VideoStartResult.started 60 ∧
    (stop_video_descriptor (video_termination_callback
      ((start_video_recording true true true 30 { initCam with is_connected := true } 2 1).2)
      42)).numImages = 42 ∧
    (stop_video_descriptor (video_termination_callback
      ((start_video_recording true true true 30 { initCam with is_connected := true } 2 1).2)
      42)).numImages ≤ 60 :=
  C7_video_frame_budget { initCam with is_connected := true } 42 rfl rfl (by decide)
